import Mathlib

/-!
Verification of the turn-orchestration core of the text-audio-ui-demo
server (`src/server/main.go`).  The Go session handler is shallowly
embedded as a state machine over an explicit session state together with
a trace of observable effects (channel allocations, goroutine spawns,
calls on the Deepgram STT connection, the LLM call, log-and-drop events,
fatal exits and panics).  External collaborators (the `api` and `utils`
packages) appear only through the effects the handler triggers on them;
their inputs to the handler (the compiled transcript, success of STT
writes and reconnects) are supplied by an environment record.
-/

namespace VoiceServer

/-- The inbound JSON message shape (`Message` in main.go):
text, conversationId, type. -/
structure Message where
  text : String
  conversationId : String
  msgType : String
deriving Repr, DecidableEq

/-- Channel identifiers.  The Go code allocates fresh unbuffered channels
with `make`; we model each allocation as drawing a fresh natural number
from a counter carried in the session state. -/
abbrev ChanId := Nat

/-- The set of channels wired for one turn: the transcript stream and stop
channel made in `handleWebSocket`, plus the four channels made inside
`makeTurnChannels` (`userMessage`, `botAudio`, `botTextForClient`,
`botTextForTTS`). -/
structure ChanSet where
  userTranscript : ChanId
  stopChan : ChanId
  userMessage : ChanId
  botAudio : ChanId
  botTextForClient : ChanId
  botTextForTTS : ChanId
deriving Repr, DecidableEq

/-- Observable effects of the session handler, in program order.
Each constructor corresponds to one concrete statement of main.go. -/
inductive Effect where
  /-- Spawning of the single outbound-sink writer:
  `go utils.WriteToWebsocket(writeChan, conn)` — the only
  outbound-sink writer for the connection. -/
  | spawnWriteToWebsocket (writeChan : ChanId)
  /-- Call to `api.NewDeepgramConnection(userTranscript, stopChan)` — opening an
  STT stream wired to the given transcript and stop channels, recording
  whether the open succeeded. -/
  | openDeepgram (userTranscript stopChan : ChanId) (ok : Bool)
  /-- Spawn of `api.SendTranscriptToClient(userTranscript, userMessage, writeChan, stopChan)`. -/
  | spawnSendTranscriptToClient (userTranscript userMessage writeChan stopChan : ChanId)
  /-- Spawn of `api.SendAudioToClient(botAudio, writeChan)`. -/
  | spawnSendAudioToClient (botAudio writeChan : ChanId)
  /-- Spawn of `api.BufferTextForTTS(botTextForTTS, botAudio)`. -/
  | spawnBufferTextForTTS (botTextForTTS botAudio : ChanId)
  /-- Spawn of `api.SendTextToClient(botTextForClient, writeChan)`. -/
  | spawnSendTextToClient (botTextForClient writeChan : ChanId)
  /-- The flush directive `deepgramConn.WriteMessage(TextMessage, Finalize)` — the message
  directive sent to the STT stream on audioEnd. -/
  | deepgramFinalize
  /-- The stop signal `stopChan <- true` delivered to the listener. -/
  | sendStop (stopChan : ChanId)
  /-- The statement `close(stopChan)`. -/
  | closeStop (stopChan : ChanId)
  /-- The receive `fullTranscript := <-userMessage` — the blocking receive of the
  finalized utterance from the aggregator, with the value received. -/
  | recvUserMessage (userMessage : ChanId) (value : String)
  /-- Spawn of `api.AskLlama(conversationId, text, botTextForClient, botTextForTTS)`. -/
  | spawnAskLlama (conversationId text : String) (botTextForClient botTextForTTS : ChanId)
  /-- a binary audio chunk successfully written to the STT stream
  (`deepgramConn.WriteMessage(BinaryMessage, p)` returning nil). -/
  | deepgramSendAudio (chunk : List Nat)
  /-- an explicit close of the STT connection.  main.go never performs
  one; the constructor exists so its absence can be stated. -/
  | closeDeepgram
  /-- a frame logged and dropped, loop continues (`continue`). -/
  | logDrop (reason : String)
  /-- Calls `log.Fatal` / `log.Fatalf` — fatal to the session (process exit). -/
  | fatal (reason : String)
  /-- a send on an already-closed channel: a Go runtime panic. -/
  | panicSendOnClosed
deriving Repr, DecidableEq

/-- Session state carried across loop iterations of `handleWebSocket`:
the fresh-channel counter, the outbound write channel, the channel set of
the current turn, whether the current `stopChan` has been closed, whether
the current STT handle was opened successfully, and whether the handler
is still running (no fatal exit, no panic). -/
structure SessionState where
  nextChan : Nat
  writeChan : ChanId
  cur : ChanSet
  stopClosed : Bool
  sttOk : Bool
  alive : Bool
  panicked : Bool
deriving Repr, DecidableEq

/-- Per-step inputs from the environment (external collaborators):
the compiled transcript the aggregator delivers on `userMessage`, and the
success of the STT write, the mid-turn reconnect, the retried write, and
the turn-transition STT open. -/
structure Env where
  finalTranscript : String
  sttWriteOk : Bool
  reconnectOk : Bool
  retryWriteOk : Bool
  turnOpenOk : Bool
deriving Repr, DecidableEq

/-- The function `makeTurnChannels` (main.go lines 43-60): allocates `userMessage`,
`botAudio`, `botTextForClient`, `botTextForTTS` and spawns the four
relay goroutines, all submitting to the given `writeChan`.  Returns the
full channel set for the turn, the new allocation counter, and the spawn
effects in program order. -/
def makeTurnChannels (userTranscript writeChan stopChan : ChanId) (next : Nat) :
    ChanSet × Nat × List Effect :=
  let userMessage := next
  let botAudio := next + 1
  let botTextForClient := next + 2
  let botTextForTTS := next + 3
  ({ userTranscript := userTranscript, stopChan := stopChan,
     userMessage := userMessage, botAudio := botAudio,
     botTextForClient := botTextForClient, botTextForTTS := botTextForTTS },
   next + 4,
   [Effect.spawnSendTranscriptToClient userTranscript userMessage writeChan stopChan,
    Effect.spawnSendAudioToClient botAudio writeChan,
    Effect.spawnBufferTextForTTS botTextForTTS botAudio,
    Effect.spawnSendTextToClient botTextForClient writeChan])

/-- Session setup (main.go lines 63-83): make `writeChan` and spawn the
single outbound writer, make `userTranscript` and `stopChan`, open the
Deepgram connection (fatal on failure, before any turn channels are
wired), then wire the first turn with `makeTurnChannels`. -/
def initSession (openOk : Bool) : SessionState × List Effect :=
  let writeChan : ChanId := 0
  let userTranscript : ChanId := 1
  let stopChan : ChanId := 2
  let e0 := [Effect.spawnWriteToWebsocket writeChan,
             Effect.openDeepgram userTranscript stopChan openOk]
  if openOk then
    let (cs, next, es) := makeTurnChannels userTranscript writeChan stopChan 3
    ({ nextChan := next, writeChan := writeChan, cur := cs,
       stopClosed := false, sttOk := true, alive := true, panicked := false },
     e0 ++ es)
  else
    ({ nextChan := 3, writeChan := writeChan,
       cur := { userTranscript := userTranscript, stopChan := stopChan,
                userMessage := 0, botAudio := 0,
                botTextForClient := 0, botTextForTTS := 0 },
       stopClosed := false, sttOk := false, alive := false, panicked := false },
     e0 ++ [Effect.fatal "Failed to connect to Deepgram"])

/-- Processing of one inbound text frame (main.go lines 92-126).
`parsed = none` models a JSON unmarshal error (logged, loop continues).
On `audioEnd` the handler sends the Finalize directive, signals and
closes `stopChan` (a send on an already-closed `stopChan` is a runtime
panic), then blocks on `userMessage` and replaces `message.Text` with the
received transcript.  An empty `ConversationID` is then logged and the
frame dropped.  Otherwise `AskLlama` is spawned with the (possibly
replaced) text, fresh `userTranscript`/`stopChan` are made, the turn
channels are rewired and a new Deepgram connection is opened — its error
is not checked (line 126), so the session stays alive either way. -/
def stepText (s : SessionState) (env : Env) (parsed : Option Message) :
    SessionState × List Effect :=
  match parsed with
  | none => (s, [Effect.logDrop "Error unmarshaling message"])
  | some message =>
    if message.msgType = "audioEnd" ∧ s.stopClosed then
      ({ s with panicked := true },
       [Effect.deepgramFinalize, Effect.panicSendOnClosed])
    else
      let s1 := if message.msgType = "audioEnd"
                then { s with stopClosed := true } else s
      let e1 := if message.msgType = "audioEnd"
                then [Effect.deepgramFinalize,
                      Effect.sendStop s.cur.stopChan,
                      Effect.closeStop s.cur.stopChan,
                      Effect.recvUserMessage s.cur.userMessage env.finalTranscript]
                else []
      let text := if message.msgType = "audioEnd"
                  then env.finalTranscript else message.text
      if message.conversationId = "" then
        (s1, e1 ++ [Effect.logDrop "ConversationID is empty"])
      else
        let askE := Effect.spawnAskLlama message.conversationId text
                      s1.cur.botTextForClient s1.cur.botTextForTTS
        let userTranscript := s1.nextChan
        let stopChan := s1.nextChan + 1
        let (cs, next, es) :=
          makeTurnChannels userTranscript s1.writeChan stopChan (s1.nextChan + 2)
        ({ s1 with nextChan := next, cur := cs, stopClosed := false,
                   sttOk := env.turnOpenOk },
         e1 ++ [askE] ++ es
            ++ [Effect.openDeepgram userTranscript stopChan env.turnOpenOk])

/-- Processing of one inbound binary (audio) frame (main.go lines
128-148): write the chunk to the STT stream; on failure reconnect once
reusing the same `userTranscript` and `stopChan`, fatal if the reconnect
fails, then retry the same chunk once, fatal if the retry fails. -/
def stepBinary (s : SessionState) (env : Env) (chunk : List Nat) :
    SessionState × List Effect :=
  if env.sttWriteOk then
    (s, [Effect.deepgramSendAudio chunk])
  else
    let openE := Effect.openDeepgram s.cur.userTranscript s.cur.stopChan env.reconnectOk
    if env.reconnectOk then
      if env.retryWriteOk then
        ({ s with sttOk := true }, [openE, Effect.deepgramSendAudio chunk])
      else
        ({ s with alive := false },
         [openE, Effect.fatal "Failed to re-connect to Deepgram"])
    else
      ({ s with alive := false },
       [openE, Effect.fatal "Failed to connect to Deepgram"])

/-- One inbound websocket frame: a text frame carrying a parse result, or
a binary frame carrying audio bytes. -/
inductive Frame where
  | textFrame (parsed : Option Message)
  | binaryFrame (chunk : List Nat)
deriving Repr, DecidableEq

/-- Dispatch of one frame by message type (the `if messageType` chain). -/
def stepFrame (s : SessionState) (env : Env) : Frame → SessionState × List Effect
  | Frame.textFrame p => stepText s env p
  | Frame.binaryFrame c => stepBinary s env c

/-- The read loop (main.go lines 85-150): process frames in order,
stopping after a fatal exit or a panic. -/
def runFrames (s : SessionState) : List (Env × Frame) → SessionState × List Effect
  | [] => (s, [])
  | (env, f) :: rest =>
    let r := stepFrame s env f
    if r.1.alive ∧ ¬r.1.panicked then
      ((runFrames r.1 rest).1, r.2 ++ (runFrames r.1 rest).2)
    else
      r

/-- Recognizer for LLM-call effects. -/
def isAskLlama : Effect → Bool
  | Effect.spawnAskLlama _ _ _ _ => true
  | _ => false

/-- Recognizer for a successful STT write of the given chunk. -/
def isSendAudio (chunk : List Nat) : Effect → Bool
  | Effect.deepgramSendAudio c => c = chunk
  | _ => false

/-- Recognizer for STT stream opens (`api.NewDeepgramConnection`). -/
def isOpenDeepgram : Effect → Bool
  | Effect.openDeepgram _ _ _ => true
  | _ => false

/-- Recognizer for the outbound-sink writer spawn. -/
def isWriterSpawn : Effect → Bool
  | Effect.spawnWriteToWebsocket _ => true
  | _ => false

/-- Recognizer for STT-finalization traffic: the Finalize directive, the
stop signal and its close, and the blocking aggregator receive. -/
def isSttFinalization : Effect → Bool
  | Effect.deepgramFinalize => true
  | Effect.sendStop _ => true
  | Effect.closeStop _ => true
  | Effect.recvUserMessage _ _ => true
  | _ => false

/-- True when an effect is a relay/aggregator spawn submitting to a write
channel other than `w`, i.e. a producer wired to some other sink. -/
def producerOffSink (w : ChanId) : Effect → Bool
  | Effect.spawnSendTranscriptToClient _ _ wc _ => wc ≠ w
  | Effect.spawnSendAudioToClient _ wc => wc ≠ w
  | Effect.spawnSendTextToClient _ wc => wc ≠ w
  | _ => false

/-- Helper: no single step ever emits an explicit STT close — main.go
contains no `deepgramConn.Close()` call on any path. -/
theorem stepFrame_no_closeDeepgram (s : SessionState) (env : Env) (f : Frame) :
    Effect.closeDeepgram ∉ (stepFrame s env f).2 := by
  cases f with
  | textFrame parsed =>
    rcases parsed with _ | m
    · simp [stepFrame, stepText]
    · by_cases h1 : m.msgType = "audioEnd" ∧ s.stopClosed = true
      · simp [stepFrame, stepText, h1]
      · by_cases ht : m.msgType = "audioEnd" <;>
          by_cases hid : m.conversationId = "" <;>
            simp_all [stepFrame, stepText, makeTurnChannels]
  | binaryFrame c =>
    by_cases hw : env.sttWriteOk <;>
      by_cases hr : env.reconnectOk <;>
        by_cases hrw : env.retryWriteOk <;>
          simp_all [stepFrame, stepBinary]

/-- Helper: no run of the read loop ever emits an explicit STT close. -/
theorem runFrames_no_closeDeepgram (s : SessionState) (fs : List (Env × Frame)) :
    Effect.closeDeepgram ∉ (runFrames s fs).2 := by
  induction fs generalizing s with
  | nil => simp [runFrames]
  | cons p rest ih =>
    obtain ⟨env, f⟩ := p
    simp only [runFrames]
    split
    · simp only [List.mem_append, not_or]
      exact ⟨stepFrame_no_closeDeepgram s env f, ih _⟩
    · exact stepFrame_no_closeDeepgram s env f

/-- C4: when a binary audio frame's STT write fails, exactly one
reconnection of the STT stream is attempted, reusing the same turn's
transcript channel and stop channel; if the reconnection succeeds and the
retried write succeeds the chunk reaches the STT stream exactly once and
the session continues; if the retried write fails, or the reconnection
itself fails, the chunk never reaches the stream and the failure is fatal
to the session. -/
theorem stt_write_failure_one_retry (s : SessionState) (env : Env) (chunk : List Nat)
    (hw : env.sttWriteOk = false) :
    ((stepBinary s env chunk).2.countP isOpenDeepgram = 1
      ∧ Effect.openDeepgram s.cur.userTranscript s.cur.stopChan env.reconnectOk
          ∈ (stepBinary s env chunk).2)
    ∧ (env.reconnectOk = true → env.retryWriteOk = true →
        (stepBinary s env chunk).2.countP (isSendAudio chunk) = 1
        ∧ (stepBinary s env chunk).1.alive = s.alive)
    ∧ (env.reconnectOk = true → env.retryWriteOk = false →
        (stepBinary s env chunk).1.alive = false
        ∧ (stepBinary s env chunk).2.countP (isSendAudio chunk) = 0)
    ∧ (env.reconnectOk = false →
        (stepBinary s env chunk).1.alive = false
        ∧ (stepBinary s env chunk).2.countP (isSendAudio chunk) = 0) := by
  rcases env with ⟨ft, wOk, rOk, rwOk, tOk⟩
  simp only at hw
  subst hw
  cases rOk <;> cases rwOk <;>
    simp [stepBinary, isOpenDeepgram, isSendAudio, List.countP_cons, List.countP_nil]

/-- Witness for C4 at a concrete state, environment and chunk. -/
theorem stt_write_failure_one_retry_witness :
    (stepBinary (initSession true).1
        { finalTranscript := "", sttWriteOk := false, reconnectOk := true,
          retryWriteOk := true, turnOpenOk := true } [7, 8]).2.countP
        (isSendAudio [7, 8]) = 1 := by
  have h := stt_write_failure_one_retry (initSession true).1
    { finalTranscript := "", sttWriteOk := false, reconnectOk := true,
      retryWriteOk := true, turnOpenOk := true } [7, 8] rfl
  exact (h.2.1 rfl rfl).1

/-- C6: on an `audioEnd` message (with the turn's stop channel still
open), the session loop first sends the Finalize directive to the STT
stream, signals and closes the stop channel, and blocks receiving the
finalized utterance from the aggregator — in exactly that order — and
whenever the LLM call is made (non-empty conversationId) its text is that
finalized utterance. -/
theorem audioEnd_finalize_then_llm (s : SessionState) (env : Env) (m : Message)
    (ht : m.msgType = "audioEnd") (hc : s.stopClosed = false) :
    (stepText s env (some m)).2.take 4 =
      [Effect.deepgramFinalize, Effect.sendStop s.cur.stopChan,
       Effect.closeStop s.cur.stopChan,
       Effect.recvUserMessage s.cur.userMessage env.finalTranscript]
    ∧ (m.conversationId ≠ "" →
        Effect.spawnAskLlama m.conversationId env.finalTranscript
            s.cur.botTextForClient s.cur.botTextForTTS
          ∈ (stepText s env (some m)).2) := by
  by_cases hid : m.conversationId = "" <;>
    simp [stepText, ht, hc, hid, makeTurnChannels]

/-- Witness for C6: concrete `audioEnd` message in the initial session. -/
theorem audioEnd_finalize_then_llm_witness :
    (stepText (initSession true).1
        { finalTranscript := "hello there", sttWriteOk := true, reconnectOk := true,
          retryWriteOk := true, turnOpenOk := true }
        (some { text := "", conversationId := "c1", msgType := "audioEnd" })).2.take 4 =
      [Effect.deepgramFinalize, Effect.sendStop 2, Effect.closeStop 2,
       Effect.recvUserMessage 3 "hello there"] :=
  (audioEnd_finalize_then_llm (initSession true).1
    { finalTranscript := "hello there", sttWriteOk := true, reconnectOk := true,
      retryWriteOk := true, turnOpenOk := true }
    { text := "", conversationId := "c1", msgType := "audioEnd" } rfl rfl).1

/-- C9: a text frame that is not the `audioEnd` sentinel, with non-empty
conversationId, goes straight to the LLM call with its own text: the LLM
spawn is the very first effect, and no STT finalization traffic (Finalize
directive, stop signal, aggregator wait) occurs in the step. -/
theorem direct_text_straight_to_llm (s : SessionState) (env : Env) (m : Message)
    (ht : m.msgType ≠ "audioEnd") (hid : m.conversationId ≠ "") :
    (stepText s env (some m)).2.head? =
      some (Effect.spawnAskLlama m.conversationId m.text
              s.cur.botTextForClient s.cur.botTextForTTS)
    ∧ (stepText s env (some m)).2.countP isSttFinalization = 0 := by
  simp [stepText, ht, hid, makeTurnChannels, isSttFinalization, List.countP_cons,
    List.countP_nil]

/-- Witness for C9: a concrete ordinary chat message. -/
theorem direct_text_straight_to_llm_witness :
    (stepText (initSession true).1
        { finalTranscript := "", sttWriteOk := true, reconnectOk := true,
          retryWriteOk := true, turnOpenOk := true }
        (some { text := "hi bot", conversationId := "c1", msgType := "chat" })).2.head? =
      some (Effect.spawnAskLlama "c1" "hi bot" 5 6) :=
  (direct_text_straight_to_llm (initSession true).1
    { finalTranscript := "", sttWriteOk := true, reconnectOk := true,
      retryWriteOk := true, turnOpenOk := true }
    { text := "hi bot", conversationId := "c1", msgType := "chat" }
    (by decide) (by decide)).1

/-- C7: after any inbound text frame with non-empty conversationId —
regardless of its type — the loop allocates a completely fresh set of
turn channels (user transcript, stop signal, user message, bot audio,
bot text, bot TTS text, all drawn from the allocation counter) and opens
a new STT connection on the fresh transcript/stop channels, while no run
of the loop ever explicitly closes the previously active STT
connection. -/
theorem valid_text_rewires_fresh_turn (s : SessionState) (env : Env) (m : Message)
    (hid : m.conversationId ≠ "") (hns : m.msgType = "audioEnd" → s.stopClosed = false) :
    ((stepText s env (some m)).1.cur =
        { userTranscript := s.nextChan, stopChan := s.nextChan + 1,
          userMessage := s.nextChan + 2, botAudio := s.nextChan + 3,
          botTextForClient := s.nextChan + 4, botTextForTTS := s.nextChan + 5 }
      ∧ (stepText s env (some m)).1.nextChan = s.nextChan + 6
      ∧ Effect.openDeepgram s.nextChan (s.nextChan + 1) env.turnOpenOk
          ∈ (stepText s env (some m)).2)
    ∧ ∀ (s₂ : SessionState) (fs : List (Env × Frame)),
        Effect.closeDeepgram ∉ (runFrames s₂ fs).2 := by
  refine ⟨?_, fun s₂ fs => runFrames_no_closeDeepgram s₂ fs⟩
  by_cases ht : m.msgType = "audioEnd"
  · have hc := hns ht
    simp [stepText, ht, hc, hid, makeTurnChannels]
  · simp [stepText, ht, hid, makeTurnChannels]

/-- Witness for C7: a concrete chat message in the initial session. -/
theorem valid_text_rewires_fresh_turn_witness :
    (stepText (initSession true).1
        { finalTranscript := "", sttWriteOk := true, reconnectOk := true,
          retryWriteOk := true, turnOpenOk := true }
        (some { text := "hello", conversationId := "c1", msgType := "chat" })).1.cur =
      { userTranscript := 7, stopChan := 8, userMessage := 9, botAudio := 10,
        botTextForClient := 11, botTextForTTS := 12 } :=
  ((valid_text_rewires_fresh_turn (initSession true).1
      { finalTranscript := "", sttWriteOk := true, reconnectOk := true,
        retryWriteOk := true, turnOpenOk := true }
      { text := "hello", conversationId := "c1", msgType := "chat" }
      (by decide) (by decide)).1).1

/-- C8: an `audioEnd` message with empty conversationId closes the turn's
stop channel without wiring a replacement turn (the channel set is
unchanged and the handler survives); a subsequent `audioEnd` in the same
session then sends on the already-closed stop channel and the handler
panics instead of continuing. -/
theorem audioEnd_empty_id_then_panic (s : SessionState) (env env' : Env) (m m' : Message)
    (ht : m.msgType = "audioEnd") (hid : m.conversationId = "")
    (hc : s.stopClosed = false) (hp : s.panicked = false)
    (ht' : m'.msgType = "audioEnd") :
    ((stepText s env (some m)).1.stopClosed = true
      ∧ (stepText s env (some m)).1.cur = s.cur
      ∧ (stepText s env (some m)).1.panicked = false)
    ∧ ((stepText (stepText s env (some m)).1 env' (some m')).1.panicked = true
      ∧ Effect.panicSendOnClosed
          ∈ (stepText (stepText s env (some m)).1 env' (some m')).2) := by
  have h1 : stepText s env (some m) =
      ({ s with stopClosed := true },
       [Effect.deepgramFinalize, Effect.sendStop s.cur.stopChan,
        Effect.closeStop s.cur.stopChan,
        Effect.recvUserMessage s.cur.userMessage env.finalTranscript,
        Effect.logDrop "ConversationID is empty"]) := by
    simp [stepText, ht, hid, hc]
  rw [h1]
  refine ⟨⟨rfl, rfl, hp⟩, ?_⟩
  simp [stepText, ht']

/-- Witness for C8: two concrete `audioEnd` messages, the first with an
empty conversationId. -/
theorem audioEnd_empty_id_then_panic_witness :
    (stepText
        (stepText (initSession true).1
          { finalTranscript := "", sttWriteOk := true, reconnectOk := true,
            retryWriteOk := true, turnOpenOk := true }
          (some { text := "", conversationId := "", msgType := "audioEnd" })).1
        { finalTranscript := "again", sttWriteOk := true, reconnectOk := true,
          retryWriteOk := true, turnOpenOk := true }
        (some { text := "", conversationId := "c1", msgType := "audioEnd" })).1.panicked
      = true :=
  ((audioEnd_empty_id_then_panic (initSession true).1
      { finalTranscript := "", sttWriteOk := true, reconnectOk := true,
        retryWriteOk := true, turnOpenOk := true }
      { finalTranscript := "again", sttWriteOk := true, reconnectOk := true,
        retryWriteOk := true, turnOpenOk := true }
      { text := "", conversationId := "", msgType := "audioEnd" }
      { text := "", conversationId := "c1", msgType := "audioEnd" }
      rfl rfl rfl rfl rfl).2).1

/-- Helper: no loop step spawns another outbound-sink writer; the only
`go utils.WriteToWebsocket` is in session setup. -/
theorem stepFrame_no_writer_spawn (s : SessionState) (env : Env) (f : Frame) :
    (stepFrame s env f).2.countP isWriterSpawn = 0 := by
  cases f with
  | textFrame parsed =>
    rcases parsed with _ | m
    · simp [stepFrame, stepText, isWriterSpawn]
    · by_cases h1 : m.msgType = "audioEnd" ∧ s.stopClosed = true
      · simp [stepFrame, stepText, h1, isWriterSpawn]
      · by_cases ht : m.msgType = "audioEnd" <;>
          by_cases hid : m.conversationId = "" <;>
            simp_all [stepFrame, stepText, makeTurnChannels, isWriterSpawn,
              List.countP_cons, List.countP_nil]
  | binaryFrame c =>
    by_cases hw : env.sttWriteOk <;>
      by_cases hr : env.reconnectOk <;>
        by_cases hrw : env.retryWriteOk <;>
          simp_all [stepFrame, stepBinary, isWriterSpawn, List.countP_cons,
            List.countP_nil]

/-- Helper: every loop step leaves the outbound write channel untouched —
`writeChan` is made once and threaded unchanged through every turn. -/
theorem stepFrame_preserves_writeChan (s : SessionState) (env : Env) (f : Frame) :
    (stepFrame s env f).1.writeChan = s.writeChan := by
  cases f with
  | textFrame parsed =>
    rcases parsed with _ | m
    · simp [stepFrame, stepText]
    · by_cases h1 : m.msgType = "audioEnd" ∧ s.stopClosed = true
      · simp [stepFrame, stepText, h1]
      · by_cases ht : m.msgType = "audioEnd" <;>
          by_cases hid : m.conversationId = "" <;>
            simp_all [stepFrame, stepText, makeTurnChannels]
  | binaryFrame c =>
    by_cases hw : env.sttWriteOk <;>
      by_cases hr : env.reconnectOk <;>
        by_cases hrw : env.retryWriteOk <;>
          simp_all [stepFrame, stepBinary]

/-- Helper: every relay/aggregator goroutine a loop step spawns submits
to the session's own write channel, never to another sink. -/
theorem stepFrame_producers_on_sink (s : SessionState) (env : Env) (f : Frame) :
    (stepFrame s env f).2.countP (producerOffSink s.writeChan) = 0 := by
  cases f with
  | textFrame parsed =>
    rcases parsed with _ | m
    · simp [stepFrame, stepText, producerOffSink]
    · by_cases h1 : m.msgType = "audioEnd" ∧ s.stopClosed = true
      · simp [stepFrame, stepText, h1, producerOffSink]
      · by_cases ht : m.msgType = "audioEnd" <;>
          by_cases hid : m.conversationId = "" <;>
            simp_all [stepFrame, stepText, makeTurnChannels, producerOffSink,
              List.countP_cons, List.countP_nil]
  | binaryFrame c =>
    by_cases hw : env.sttWriteOk <;>
      by_cases hr : env.reconnectOk <;>
        by_cases hrw : env.retryWriteOk <;>
          simp_all [stepFrame, stepBinary, producerOffSink, List.countP_cons,
            List.countP_nil]

/-- Helper: the read loop never spawns an outbound-sink writer. -/
theorem runFrames_no_writer_spawn (s : SessionState) (fs : List (Env × Frame)) :
    (runFrames s fs).2.countP isWriterSpawn = 0 := by
  induction fs generalizing s with
  | nil => simp [runFrames]
  | cons p rest ih =>
    obtain ⟨env, f⟩ := p
    simp only [runFrames]
    split
    · rw [List.countP_append, stepFrame_no_writer_spawn, ih]
    · exact stepFrame_no_writer_spawn s env f

/-- Helper: if the session's write channel is `w`, every producer spawned
by the read loop submits to `w`. -/
theorem runFrames_producers_on_sink (s : SessionState) (fs : List (Env × Frame))
    (w : ChanId) (hw : s.writeChan = w) :
    (runFrames s fs).2.countP (producerOffSink w) = 0 := by
  induction fs generalizing s with
  | nil => simp [runFrames]
  | cons p rest ih =>
    obtain ⟨env, f⟩ := p
    have hstep := stepFrame_producers_on_sink s env f
    rw [hw] at hstep
    have hw' : (stepFrame s env f).1.writeChan = w := by
      rw [stepFrame_preserves_writeChan, hw]
    simp only [runFrames]
    split
    · rw [List.countP_append, hstep, ih _ hw']
    · exact hstep

/-- C10: the session has exactly one outbound-sink writer task, spawned
once at connection setup and never again over any sequence of inbound
frames; and every relay/aggregator goroutine spawned in any turn submits
to that single write channel (channel 0), so no producer is ever wired to
any other sink. -/
theorem one_sink_writer_across_turns (fs : List (Env × Frame)) :
    ((initSession true).2 ++ (runFrames (initSession true).1 fs).2).countP
        isWriterSpawn = 1
    ∧ ((initSession true).2 ++ (runFrames (initSession true).1 fs).2).countP
        (producerOffSink 0) = 0 := by
  constructor
  · rw [List.countP_append, runFrames_no_writer_spawn]
    rfl
  · rw [List.countP_append, runFrames_producers_on_sink _ _ 0 rfl]
    rfl

/-- C1 counterexample: an `audioEnd` message with empty conversationId is
NOT inert — it performs the full finalization transition (Finalize
directive, stop signal, stop-channel close, blocking aggregator receive:
four STT-finalization effects), and the session it leaves behind panics
on the next `audioEnd` message even though that one is valid (non-empty
conversationId), so the session does not remain usable. -/
theorem empty_id_audioEnd_still_transitions :
    (stepText (initSession true).1
        { finalTranscript := "", sttWriteOk := true, reconnectOk := true,
          retryWriteOk := true, turnOpenOk := true }
        (some { text := "", conversationId := "", msgType := "audioEnd" })).2.countP
        isSttFinalization = 4
    ∧ (runFrames (initSession true).1
        [({ finalTranscript := "", sttWriteOk := true, reconnectOk := true,
            retryWriteOk := true, turnOpenOk := true },
          Frame.textFrame (some { text := "", conversationId := "", msgType := "audioEnd" })),
         ({ finalTranscript := "x", sttWriteOk := true, reconnectOk := true,
            retryWriteOk := true, turnOpenOk := true },
          Frame.textFrame (some { text := "", conversationId := "c1", msgType := "audioEnd" }))]).1.panicked
        = true := by
  constructor <;> rfl

/-- C1 amended: a message with empty conversationId never produces an LLM
call; and when its type is not the `audioEnd` sentinel it produces no
Turn transition at all — the state is unchanged and the frame is merely
logged and dropped — so the session remains usable for subsequent valid
messages.  (For the `audioEnd` sentinel the finalization transition still
runs and leaves the stop channel closed; see the counterexample.) -/
theorem empty_id_no_llm_and_non_sentinel_inert (s : SessionState) (env : Env)
    (m : Message) (hid : m.conversationId = "") :
    (stepText s env (some m)).2.countP isAskLlama = 0
    ∧ (m.msgType ≠ "audioEnd" →
        stepText s env (some m) = (s, [Effect.logDrop "ConversationID is empty"])) := by
  by_cases h1 : m.msgType = "audioEnd" ∧ s.stopClosed = true
  · constructor
    · simp [stepText, h1, isAskLlama, List.countP_cons, List.countP_nil]
    · intro ht
      exact absurd h1.1 ht
  · by_cases ht : m.msgType = "audioEnd" <;>
      simp_all [stepText, hid, isAskLlama, List.countP_cons, List.countP_nil]

/-- Witness for C1's amended theorem: a concrete chat message with empty
conversationId leaves the initial session state untouched. -/
theorem empty_id_no_llm_and_non_sentinel_inert_witness :
    stepText (initSession true).1
        { finalTranscript := "", sttWriteOk := true, reconnectOk := true,
          retryWriteOk := true, turnOpenOk := true }
        (some { text := "hi", conversationId := "", msgType := "chat" }) =
      ((initSession true).1, [Effect.logDrop "ConversationID is empty"]) :=
  (empty_id_no_llm_and_non_sentinel_inert (initSession true).1
    { finalTranscript := "", sttWriteOk := true, reconnectOk := true,
      retryWriteOk := true, turnOpenOk := true }
    { text := "hi", conversationId := "", msgType := "chat" } rfl).2 (by decide)

/-- C3 counterexample: a turn whose finalized utterance is empty does NOT
skip the LLM call — the handler spawns `AskLlama` with the empty string
as the utterance (here on the first turn's bot channels 5 and 6). -/
theorem empty_utterance_triggers_llm_call :
    (stepText (initSession true).1
        { finalTranscript := "", sttWriteOk := true, reconnectOk := true,
          retryWriteOk := true, turnOpenOk := true }
        (some { text := "ignored", conversationId := "c1", msgType := "audioEnd" })).2.countP
        isAskLlama = 1
    ∧ Effect.spawnAskLlama "c1" "" 5 6
        ∈ (stepText (initSession true).1
            { finalTranscript := "", sttWriteOk := true, reconnectOk := true,
              retryWriteOk := true, turnOpenOk := true }
            (some { text := "ignored", conversationId := "c1", msgType := "audioEnd" })).2 := by
  constructor
  · rfl
  · decide

/-- C3 amended: a turn whose finalized utterance is empty still triggers
the LLM call, with the empty string as the utterance, and the turn still
transitions to its terminal state — the stop channel was closed, a fresh
turn is wired (new transcript channel drawn from the counter) and the new
stop channel is open. -/
theorem empty_utterance_llm_and_transition (s : SessionState) (env : Env)
    (m : Message) (ht : m.msgType = "audioEnd") (hc : s.stopClosed = false)
    (hid : m.conversationId ≠ "") (he : env.finalTranscript = "") :
    Effect.spawnAskLlama m.conversationId "" s.cur.botTextForClient s.cur.botTextForTTS
        ∈ (stepText s env (some m)).2
    ∧ Effect.closeStop s.cur.stopChan ∈ (stepText s env (some m)).2
    ∧ (stepText s env (some m)).1.stopClosed = false
    ∧ (stepText s env (some m)).1.cur.userTranscript = s.nextChan := by
  simp [stepText, ht, hc, hid, he, makeTurnChannels]

/-- Witness for C3's amended theorem at a concrete empty-transcript
`audioEnd` turn. -/
theorem empty_utterance_llm_and_transition_witness :
    Effect.spawnAskLlama "c1" "" 5 6
      ∈ (stepText (initSession true).1
          { finalTranscript := "", sttWriteOk := true, reconnectOk := true,
            retryWriteOk := true, turnOpenOk := true }
          (some { text := "", conversationId := "c1", msgType := "audioEnd" })).2 :=
  (empty_utterance_llm_and_transition (initSession true).1
    { finalTranscript := "", sttWriteOk := true, reconnectOk := true,
      retryWriteOk := true, turnOpenOk := true }
    { text := "", conversationId := "c1", msgType := "audioEnd" }
    rfl rfl (by decide) rfl).1

/-- C5: at session start a failed STT open is indeed fatal (the handler
exits before wiring any turn), but at a turn transition the result of
`api.NewDeepgramConnection` on line 126 is never checked: with a failing
open the session stays alive and keeps looping with an unusable STT
handle, contradicting the fatal-teardown requirement. -/
theorem stt_open_failure_divergence :
    ((initSession false).1.alive = false
      ∧ Effect.fatal "Failed to connect to Deepgram" ∈ (initSession false).2)
    ∧ (Effect.openDeepgram 7 8 false
          ∈ (stepText (initSession true).1
              { finalTranscript := "", sttWriteOk := true, reconnectOk := true,
                retryWriteOk := true, turnOpenOk := false }
              (some { text := "hi", conversationId := "c1", msgType := "chat" })).2
        ∧ (stepText (initSession true).1
              { finalTranscript := "", sttWriteOk := true, reconnectOk := true,
                retryWriteOk := true, turnOpenOk := false }
              (some { text := "hi", conversationId := "c1", msgType := "chat" })).1.alive
            = true
        ∧ (stepText (initSession true).1
              { finalTranscript := "", sttWriteOk := true, reconnectOk := true,
                retryWriteOk := true, turnOpenOk := false }
              (some { text := "hi", conversationId := "c1", msgType := "chat" })).1.sttOk
            = false) := by
  refine ⟨⟨rfl, by decide⟩, by decide, rfl, rfl⟩

/-- An outbound packet submitted to the sink, tagged with the channel of
the producer that submitted it (a turn's bot-text channel or botAudio
channel). -/
inductive Packet where
  | botText (botTextForClient : ChanId) (s : String)
  | botAudioBlob (botAudio : ChanId)
deriving Repr, DecidableEq

/-- Modelled from the spec: the Text Relay and Audio Relay of the `api`
package (not under src/) — `SendTextToClient` forwards each LLM reply
increment to the sink immediately, and `SendAudioToClient` submits the
synthesized audio as one consolidated blob; so the producers spawned for
one turn's `AskLlama` call submit, in production order, the reply
increments on the turn's bot-text channel followed by the turn's single
audio blob. -/
def llamaSinkPackets (botTextForClient botAudio : ChanId) (reply : List String) :
    List Packet :=
  reply.map (Packet.botText botTextForClient) ++ [Packet.botAudioBlob botAudio]

/-- The producer channel a packet was submitted on. -/
def packetChan : Packet → ChanId
  | Packet.botText c _ => c
  | Packet.botAudioBlob c => c

/-- Schedulable sink traces of two concurrently running producers: any
interleaving of the two submission sequences.  The spawning loop imposes
no ordering between the goroutines of consecutive turns (the `go`
statements return immediately and main.go performs no join or drain
acknowledgment), so every merge is a possible schedule. -/
inductive Merge : List Packet → List Packet → List Packet → Prop
  | nil : Merge [] [] []
  | left {x : Packet} {xs ys zs : List Packet} :
      Merge xs ys zs → Merge (x :: xs) ys (x :: zs)
  | right {y : Packet} {xs ys zs : List Packet} :
      Merge xs ys zs → Merge xs (y :: ys) (y :: zs)

/-- A sink trace violates the turn-ordering property when a packet of the
second turn is followed, somewhere later, by a packet of the first
turn. -/
def violatesTurnOrder (fst snd : List ChanId) (trace : List Packet) : Bool :=
  (List.range trace.length).any fun i =>
    ((trace.drop i).head?.elim false fun p => packetChan p ∈ snd)
    ∧ (trace.drop (i + 1)).any fun q => packetChan q ∈ fst

/-- The two-turn session: two `audioEnd` turns on conversation "c" with
transcripts "one" and "two". -/
def twoTurnTrace : List Effect :=
  (runFrames (initSession true).1
    [({ finalTranscript := "one", sttWriteOk := true, reconnectOk := true,
        retryWriteOk := true, turnOpenOk := true },
      Frame.textFrame (some { text := "", conversationId := "c", msgType := "audioEnd" })),
     ({ finalTranscript := "two", sttWriteOk := true, reconnectOk := true,
        retryWriteOk := true, turnOpenOk := true },
      Frame.textFrame (some { text := "", conversationId := "c", msgType := "audioEnd" }))]).2

/-- C2 refutation: in the two-turn session, Turn 1's `AskLlama` is
spawned on bot channels 5/6 (audio blob on channel 4) and Turn 2's on
channels 11/12 (audio blob on 10), with Turn 2 wired immediately — the
loop performs no drain acknowledgment between the spawns — so a
schedulable interleaving of the two producers' sink submissions exists in
which a Turn 2 packet precedes Turn 1's packets: Turn 1's packets do not
strictly precede Turn 2's, and Turn 1 keeps submitting after Turn 2 has
begun. -/
theorem closed_turn_order_not_enforced :
    (Effect.spawnAskLlama "c" "one" 5 6 ∈ twoTurnTrace
      ∧ Effect.spawnBufferTextForTTS 6 4 ∈ (initSession true).2
      ∧ Effect.spawnSendAudioToClient 4 0 ∈ (initSession true).2
      ∧ Effect.spawnAskLlama "c" "two" 11 12 ∈ twoTurnTrace
      ∧ Effect.spawnBufferTextForTTS 12 10 ∈ twoTurnTrace
      ∧ Effect.spawnSendAudioToClient 10 0 ∈ twoTurnTrace)
    ∧ ∃ trace : List Packet,
        Merge (llamaSinkPackets 5 4 ["hi"]) (llamaSinkPackets 11 10 ["ok"]) trace
        ∧ violatesTurnOrder [5, 4] [11, 10] trace = true := by
  constructor
  · exact ⟨by decide, by decide, by decide, by decide, by decide, by decide⟩
  · refine ⟨[Packet.botText 11 "ok", Packet.botText 5 "hi",
             Packet.botAudioBlob 4, Packet.botAudioBlob 10], ?_, by decide⟩
    exact Merge.right (Merge.left (Merge.left (Merge.right Merge.nil)))

end VoiceServer
